import Mathlib

/-!
Shallow embedding of `src/data_collection.py` (class `FPLDataCollection`):
the change-detection and synchronization layer of a fantasy-sports data
collector.  Tables are ordered lists of rows, a row is an ordered mapping
from column name to a cell (mirroring a pandas `DataFrame` built from a
list of records).  The persisted SQLite store is modelled as an
association list from table name to table; `none` at the store or fetch
position models an unreachable store / failed HTTP fetch (`_make_request`
returning `None`).
-/

set_option autoImplicit false

namespace FPL

/-- Scalar values appearing in API responses and table cells.  `vnull`
covers JSON `null` and pandas `NaN` (which `Series.equals` and
`DataFrame.equals` treat as equal when in equal locations). -/
inductive Value where
  | vnull
  | vint (n : Int)
  | vstr (s : String)
  | vbool (b : Bool)
deriving DecidableEq, Repr

/-- A JSON object whose fields are scalars (one record). -/
abbrev Obj := List (String × Value)

/-- A `DataFrame` cell: a scalar, or (object dtype) a list or dict kept
verbatim in the frame. -/
inductive Cell where
  | cval (v : Value)
  | clist (vs : List Value)
  | cobj (o : Obj)
deriving DecidableEq, Repr

/-- A row: ordered mapping column name → cell (one record). -/
abbrev Row := List (String × Cell)

/-- A table: ordered sequence of rows (a `DataFrame` of records). -/
abbrev Table := List Row

/-- A named table set, as returned by `get_fpl_data` (Python dicts keep
insertion order, so an association list is faithful). -/
abbrev TableSet := List (String × Table)

/-- The persisted store: table name → stored rows. -/
abbrev Store := List (String × Table)

/-- Column lookup inside one row. -/
def lookupCol (r : Row) (c : String) : Option Cell :=
  (r.find? (fun p => p.1 == c)).map (·.2)

/-- Table lookup in a table set / store (SQL `SELECT * FROM name`; its
`isSome` is the `sqlite_master` existence probe). -/
def lookupTable (s : Store) (name : String) : Option Table :=
  (s.find? (fun p => p.1 == name)).map (·.2)

/-- Verdict lookup in an update-verdict list (`updates.get(name)`). -/
def lookupVerdict (l : List (String × Bool)) (name : String) : Option Bool :=
  (l.find? (fun p => p.1 == name)).map (·.2)

/-- The columns of a `DataFrame` built from records are the union of the
record keys; `df[c]` raises `KeyError` iff no row carries column `c`. -/
def hasCol (t : Table) (c : String) : Bool :=
  t.any (fun r => (lookupCol r c).isSome)

/-- Column `c` of table `t`, row-aligned by position; a row missing the
key yields `NaN` (here `cval vnull`), as pandas does. -/
def colVals (t : Table) (c : String) : List Cell :=
  t.map (fun r => (lookupCol r c).getD (.cval .vnull))

/-- `df[c]` as a fallible operation: `KeyError` when the column is absent
from the whole frame. -/
def getCol (t : Table) (c : String) : Option (List Cell) :=
  if hasCol t c then some (colVals t c) else none

/-! ## Change Detector: `check_for_updates` (src lines 150-193)

For each `(table_name, new_df)` of the fetched table set, the loop body:
probes `sqlite_master` for the table; a missing table means verdict
`true`; otherwise it reads the whole table and compares — `game_weeks` by
`DataFrame.equals`, `football_players` by equality of the `total_points`
series, all other tables by row count.  Any raised exception (e.g. a
`KeyError` on `total_points`) aborts the whole loop and the method
returns the empty dict `{}`. -/

/-- The comparison applied to one table pair inside the loop of
`check_for_updates`; `Except` carries the Python exceptions that the
outer `try` turns into an empty result. -/
def tableVerdict (conn : Store) (name : String) (new_df : Table) :
    Except String Bool :=
  if (lookupTable conn name).isSome = false then
    .ok true
  else
    match lookupTable conn name with
    | none => .error "no such table"
    | some existing_df =>
      if name = "game_weeks" then
        .ok (decide (new_df ≠ existing_df))
      else if name = "football_players" then
        match getCol new_df "total_points", getCol existing_df "total_points" with
        | some fresh_pts, some old_pts => .ok (decide (fresh_pts ≠ old_pts))
        | _, _ => .error "KeyError: total_points"
      else
        .ok (decide (new_df.length ≠ existing_df.length))

/-- The loop over `api_data.items()`: builds the verdict dict entry by
entry; the first exception aborts everything (the partially built dict is
discarded by the `except` handler). -/
def runUpdates (conn : Store) : TableSet → Except String (List (String × Bool))
  | [] => .ok []
  | (name, new_df) :: rest =>
    match tableVerdict conn name new_df with
    | .error e => .error e
    | .ok b =>
      match runUpdates conn rest with
      | .error e => .error e
      | .ok vs => .ok ((name, b) :: vs)

/-- Store reads performed when processing one table: the `sqlite_master`
probe always runs; `SELECT * FROM name` only when the table exists. -/
def verdictReads (conn : Store) (name : String) : List String :=
  ("sqlite_master:" ++ name) ::
    (if (lookupTable conn name).isSome then [name] else [])

/-- The store reads the loop performs, in order, stopping at the first
exception (reads already issued before the failure are kept). -/
def runUpdatesReads (conn : Store) : TableSet → List String
  | [] => []
  | (name, new_df) :: rest =>
    verdictReads conn name ++
      (match tableVerdict conn name new_df with
       | .error _ => []
       | .ok _ => runUpdatesReads conn rest)

/-- `check_for_updates`: `store = none` models `sqlite3.connect` raising
(store unreachable, caught by the `except` → `{}`); `fetch = none` models
`get_fpl_data()` returning `None` (the method returns `{}` before any
table read); otherwise the loop runs and an exception anywhere yields
`{}` instead of a partial dict. -/
def check_for_updates (store : Option Store) (fetch : Option TableSet) :
    List (String × Bool) :=
  match store with
  | none => []
  | some conn =>
    match fetch with
    | none => []
    | some api_data =>
      match runUpdates conn api_data with
      | .ok vs => vs
      | .error _ => []

/-- The sequence of store reads `check_for_updates` issues (empty when
the connection fails or the fetch fails before the loop starts). -/
def checkForUpdatesReads (store : Option Store) (fetch : Option TableSet) :
    List String :=
  match store, fetch with
  | some conn, some api_data => runUpdatesReads conn api_data
  | _, _ => []

/-! ## Sync Orchestrator: `sync_database` (src lines 195-226)

The observable outcome of a call.  The store is returned unchanged in
every branch because the only mutation — `self.save_to_database(...)` at
the end of the method — is commented out in the source (lines 225-226),
leaving sync as a logged no-op after computing `update_dict`. -/

inductive SyncResult where
  /-- "No updates available or error checking for updates" -/
  | noUpdates
  /-- "All specified tables are up to date" -/
  | upToDate
  /-- "Failed to fetch new data" (second fetch returned `None`) -/
  | fetchFailed
  /-- `new_data[table]` raised `KeyError` building `update_dict` -/
  | keyError
  /-- `update_dict` was computed (and then never written) -/
  | computed (update_dict : List (String × Table))
deriving DecidableEq, Repr

/-- `sync_database`: `fetch1` feeds the `check_for_updates` call, `fetch2`
is the independent re-fetch used to build `update_dict`.
`specific_tables = some []` is falsy in Python, hence falls back to
`updates.keys()` exactly like `None`. -/
def sync_database (store : Option Store) (fetch1 fetch2 : Option TableSet)
    (specific_tables : Option (List String)) : Option Store × SyncResult :=
  let updates := check_for_updates store fetch1
  if updates.isEmpty then
    (store, .noUpdates)
  else
    let tables_to_update :=
      match specific_tables with
      | some ts => if ts.isEmpty then updates.map Prod.fst else ts
      | none => updates.map Prod.fst
    let tables_needing_update :=
      tables_to_update.filter (fun t => (lookupVerdict updates t).getD false)
    if tables_needing_update.isEmpty then
      (store, .upToDate)
    else
      match fetch2 with
      | none => (store, .fetchFailed)
      | some new_data =>
        match tables_needing_update.mapM
            (fun t => (lookupTable new_data t).map (fun tb => (t, tb))) with
        | none => (store, .keyError)
        | some update_dict => (store, .computed update_dict)

/-! ## Gameweek accessor: `get_last_updated_gameweek` (src lines 228-239)

`SELECT MAX(id) as last_gw FROM game_weeks WHERE finished = 1`, then
`df['last_gw'].iloc[0] or 0`.  SQLite stores booleans as the integers
1/0, so `finished = 1` selects rows whose `finished` cell is the integer
1 (a `True` written by pandas arrives as 1).  `MAX` over no rows is
`NULL`, which pandas reads as `None`, and `None or 0` is `0`; a raised
exception (unreachable store, missing table) also returns 0. -/

/-- The SQL predicate `finished = 1` on a stored cell. -/
def sqlEqOne (c : Cell) : Bool :=
  match c with
  | .cval (.vint n) => n == 1
  | .cval (.vbool b) => b
  | _ => false

/-- The `id` values of the rows selected by `WHERE finished = 1`
(only integer ids feed `MAX`). -/
def finishedIds (rows : Table) : List Int :=
  rows.filterMap (fun r =>
    if sqlEqOne ((lookupCol r "finished").getD (.cval .vnull)) then
      match lookupCol r "id" with
      | some (.cval (.vint i)) => some i
      | _ => none
    else none)

/-- SQL `MAX` over a list of ids: `NULL` (`none`) when no row matched. -/
def sqlMax : List Int → Option Int
  | [] => none
  | i :: is => some (is.foldl max i)

/-- `get_last_updated_gameweek`: 0 when the store is unreachable, when
`game_weeks` does not exist, and when no gameweek is finished
(`None or 0`); `m or 0` is `m` for a nonzero max and 0 for a zero max,
i.e. the max itself in both cases. -/
def get_last_updated_gameweek (store : Option Store) : Int :=
  match store with
  | none => 0
  | some conn =>
    match lookupTable conn "game_weeks" with
    | none => 0
    | some rows =>
      match sqlMax (finishedIds rows) with
      | none => 0
      | some m => m

/-! ## Snapshot Fetcher: `get_manager_gameweek_data` (src lines 51-80)

The remote payload is a JSON object; the four optional fields are
extracted defensively.  One nesting level is enough for everything this
method consumes: a field is `null`, a scalar, an object of scalars, or a
list of items (each item a scalar, a list of scalars, or an object of
scalars). -/

/-- One element of a JSON array field. -/
inductive JItem where
  | iscalar (v : Value)
  | ilist (vs : List Value)
  | iobj (o : Obj)
deriving DecidableEq, Repr

/-- One field of the remote JSON object.  `jnull` embeds Python `None`
(JSON `null`), the value the `is not None` guard tests for. -/
inductive JField where
  | jnull
  | jscalar (v : Value)
  | jlist (items : List JItem)
  | jobj (o : Obj)
deriving DecidableEq, Repr

/-- The decoded remote response: field name → JSON field. -/
abbrev RemoteData := List (String × JField)

/-- `data_key in data` / `data[data_key]` on the decoded response. -/
def lookupField (data : RemoteData) (k : String) : Option JField :=
  (data.find? (fun p => p.1 == k)).map (·.2)

/-- A `DataFrame` cell holding one JSON array item verbatim. -/
def itemToCell (it : JItem) : Cell :=
  match it with
  | .iscalar v => .cval v
  | .ilist vs => .clist vs
  | .iobj o => .cobj o

/-- A row of positionally named columns `"0", "1", ...` (how pandas
frames a list that is not a list of records). -/
def positionalRow (cells : List Cell) : Row :=
  cells.enum.map (fun p => (toString p.1, p.2))

/-- `pd.DataFrame(items)` for a JSON array: records give named columns,
inner lists give positional columns, scalars give the single column
`"0"`. -/
def itemRow (it : JItem) : Row :=
  match it with
  | .iobj o => o.map (fun p => (p.1, Cell.cval p.2))
  | .ilist vs => positionalRow (vs.map Cell.cval)
  | .iscalar v => [("0", Cell.cval v)]

/-- `pd.DataFrame(items)`: one row per item. -/
def dfFromItems (items : List JItem) : Table :=
  items.map itemRow

/-- `pd.DataFrame([field])` — the `event_history` branch: always a
single-row table, whatever the field's shape. -/
def dfSingleRow (f : JField) : Table :=
  match f with
  | .jobj o => [o.map (fun p => (p.1, Cell.cval p.2))]
  | .jscalar v => [[("0", Cell.cval v)]]
  | .jlist items => [positionalRow (items.map itemToCell)]
  | .jnull => [[("0", Cell.cval .vnull)]]

/-- The fixed `data_mapping` of the method: result key → remote key. -/
def data_mapping : List (String × String) :=
  [("active_chips", "active_chip"),
   ("automatic_subs", "automatic_subs"),
   ("event_history", "entry_history"),
   ("player_picks", "picks")]

/-- The loop body for one `(df_key, data_key)` pair: an absent or `None`
field yields `None` (an absent sub-table); otherwise `event_history` is
framed as a single row, a list field as one row per item, a dict field as
a single record, and a bare scalar as `pd.DataFrame([[v]])`. -/
def extractSub (data : RemoteData) (df_key data_key : String) : Option Table :=
  match lookupField data data_key with
  | none => none
  | some .jnull => none
  | some f =>
    if df_key = "event_history" then
      some (dfSingleRow f)
    else
      match f with
      | .jlist items => some (dfFromItems items)
      | .jobj o => some (dfFromItems [.iobj o])
      | .jscalar v => some (dfFromItems [.ilist [v]])
      | .jnull => none

/-- `get_manager_gameweek_data`: `none` when the HTTP fetch failed,
otherwise the four sub-tables keyed by `data_mapping`, each
independently absent or present. -/
def get_manager_gameweek_data (fetched : Option RemoteData) :
    Option (List (String × Option Table)) :=
  match fetched with
  | none => none
  | some data =>
    some (data_mapping.map (fun p => (p.1, extractSub data p.1 p.2)))

/-- Sub-table lookup in a manager-gameweek result. -/
def lookupSub (res : Option (List (String × Option Table))) (k : String) :
    Option (Option Table) :=
  ((res.getD []).find? (fun p => p.1 == k)).map (·.2)

/-! ## Construction: `FPLDataCollection.__init__` (src lines 7-49)

In the source the helper methods `_make_request`, `_get_current_gameweek`
and `get_fpl_data` are indented inside `__init__` (nested `def`
statements executed after the assignments), while line 16 evaluates
`get_fpl_data()` and line 17 evaluates `self._get_current_gameweek()`.
Python compiles a name assigned anywhere in a function (a nested `def`
binds its name) as a local of that function, so the call on line 16 reads
a local that is not yet bound.  We embed the statement sequence of
`__init__` together with Python's name resolution for bare-name calls
and `self.`-attribute calls. -/

/-- What a statement of the `__init__` body may call. -/
inductive Callee where
  | noCall
  | bareName (n : String)
  | selfAttr (n : String)
deriving DecidableEq, Repr

/-- One statement of the `__init__` body: an optional bound local name
(nested `def`) and an optional call evaluated by the statement. -/
structure InitStmt where
  binds : Option String
  calls : Callee
deriving DecidableEq, Repr

/-- The body of `__init__` in source order: two plain attribute
assignments, the two calling assignments of lines 16-17, then the three
nested `def` statements of lines 19-49. -/
def initBody : List InitStmt :=
  [⟨none, .noCall⟩,
   ⟨none, .noCall⟩,
   ⟨none, .bareName "get_fpl_data"⟩,
   ⟨none, .selfAttr "_get_current_gameweek"⟩,
   ⟨some "_make_request", .noCall⟩,
   ⟨some "_get_current_gameweek", .noCall⟩,
   ⟨some "get_fpl_data", .noCall⟩]

/-- The parameters of `__init__`, bound on entry. -/
def initParams : List String := ["self", "base_url"]

/-- Module-level globals of `data_collection.py` visible inside the
class body (the imports and the class itself). -/
def moduleGlobals : List String :=
  ["requests", "pd", "sqlite3", "Dict", "Optional", "List",
   "FPLDataCollection"]

/-- The class-level attributes of `FPLDataCollection`: only the methods
defined at class indentation (lines 7, 51, 82, 94, 107, 150, 195, 228). -/
def classAttrs : List String :=
  ["__init__", "get_manager_gameweek_data", "get_league_standings",
   "get_manager_history", "collect_player_data_from_league",
   "check_for_updates", "sync_database", "get_last_updated_gameweek"]

/-- Every local name of `__init__`: parameters plus every name bound by
a statement anywhere in the body (Python decides local-ness from the
whole body, not from execution order). -/
def initLocalNames : List String :=
  initParams ++ initBody.filterMap (·.binds)

/-- Resolve one call under Python scoping: a bare name bound somewhere in
the function is a local and must already be bound (else
`UnboundLocalError`); an unbound bare name falls back to the module
globals (else `NameError`); `self.n` requires a class attribute (else
`AttributeError`). -/
def resolveCall (boundSoFar : List String) : Callee → Except String Unit
  | .noCall => .ok ()
  | .bareName n =>
    if initLocalNames.contains n then
      if boundSoFar.contains n then .ok ()
      else .error ("UnboundLocalError: " ++ n)
    else if moduleGlobals.contains n then .ok ()
    else .error ("NameError: " ++ n)
  | .selfAttr n =>
    if classAttrs.contains n then .ok ()
    else .error ("AttributeError: " ++ n)

/-- Execute the `__init__` body: statements run in order, each call is
resolved against the locals bound so far, and the first unresolved call
raises out of the constructor (there is no `try` in `__init__`). -/
def runInitBody : List String → List InitStmt → Except String Unit
  | _, [] => .ok ()
  | bound, s :: rest =>
    match resolveCall bound s.calls with
    | .error e => .error e
    | .ok _ =>
      runInitBody (match s.binds with
                   | some n => n :: bound
                   | none => bound) rest

/-- Constructing `FPLDataCollection(base_url)`. -/
def constructFPLDataCollection : Except String Unit :=
  runInitBody initParams initBody

/-! ## Concrete fixtures used by witnesses and counterexamples -/

/-- An integer cell. -/
def cInt (n : Int) : Cell := .cval (.vint n)

/-- A string cell. -/
def cStr (s : String) : Cell := .cval (.vstr s)

/-- A `football_teams` row. -/
def teamRow (i pts : Int) : Row := [("id", cInt i), ("points", cInt pts)]

/-- 20 persisted team rows, all with 5 points. -/
def teams_persisted : Table := (List.range 20).map (fun i => teamRow i 5)

/-- 20 fresh team rows, team 0's points changed to 6. -/
def teams_fresh : Table :=
  (List.range 20).map (fun i => teamRow i (if i = 0 then 6 else 5))

/-- A persisted `football_players` row. -/
def players_persisted : Table :=
  [[("id", cInt 1), ("form", cStr "1.0"), ("total_points", cInt 10)]]

/-- The same player with only the non-`total_points` column changed. -/
def players_fresh : Table :=
  [[("id", cInt 1), ("form", cStr "2.5"), ("total_points", cInt 10)]]

/-! ## Claim theorems -/

/-- Claim C2: for every fresh and persisted pair of `game_weeks` tables,
`check_for_updates` yields verdict true for `game_weeks` iff the fresh
table is not element-wise identical (all rows, all columns, in order) to
the persisted table. -/
theorem game_weeks_verdict_iff_not_identical (fresh persisted : Table) :
    lookupVerdict
      (check_for_updates (some [("game_weeks", persisted)])
        (some [("game_weeks", fresh)])) "game_weeks"
      = some (decide (fresh ≠ persisted)) := by
  simp [check_for_updates, runUpdates, tableVerdict, lookupTable, lookupVerdict]

/-- Claim C5: a table absent from the persisted store gets verdict true,
regardless of the fresh table's content. -/
theorem missing_table_verdict_true (conn : Store) (name : String) (fresh : Table)
    (h : lookupTable conn name = none) :
    lookupVerdict (check_for_updates (some conn) (some [(name, fresh)])) name
      = some true := by
  simp [check_for_updates, runUpdates, tableVerdict, h, lookupVerdict]

/-- Witness for C5: an empty store and a nonempty `chips` table. -/
theorem missing_table_verdict_true_witness :
    lookupVerdict
      (check_for_updates (some []) (some [("chips", [[("id", cInt 1)]])]))
      "chips" = some true :=
  missing_table_verdict_true [] "chips" [[("id", cInt 1)]] (by decide)

/-- Claim C4: every table other than `game_weeks` and `football_players`
that exists in the persisted store gets verdict true iff the row counts
differ. -/
theorem other_table_verdict_iff_row_count (name : String) (fresh persisted : Table)
    (h1 : name ≠ "game_weeks") (h2 : name ≠ "football_players") :
    lookupVerdict
      (check_for_updates (some [(name, persisted)]) (some [(name, fresh)])) name
      = some (decide (fresh.length ≠ persisted.length)) := by
  simp [check_for_updates, runUpdates, tableVerdict, lookupTable, lookupVerdict,
    h1, h2]

/-- Witness for C4: 20 persisted `football_teams` rows and 20 fresh rows
with one team's `points` changed give verdict false (the tables do
differ, but the row-count rule masks it). -/
theorem other_table_verdict_iff_row_count_witness :
    teams_fresh ≠ teams_persisted
    ∧ lookupVerdict
        (check_for_updates (some [("football_teams", teams_persisted)])
          (some [("football_teams", teams_fresh)])) "football_teams"
        = some false := by
  refine ⟨by decide, ?_⟩
  have h := other_table_verdict_iff_row_count "football_teams" teams_fresh
    teams_persisted (by decide) (by decide)
  rw [h]
  decide

/-- Claim C3: for `football_players` (when both frames carry the
`total_points` column, so that no `KeyError` aborts the check), the
verdict is true iff the `total_points` column, row-aligned by position,
differs between fresh and persisted. -/
theorem football_players_verdict_iff_total_points (fresh persisted : Table)
    (h1 : hasCol fresh "total_points" = true)
    (h2 : hasCol persisted "total_points" = true) :
    lookupVerdict
      (check_for_updates (some [("football_players", persisted)])
        (some [("football_players", fresh)])) "football_players"
      = some (decide (colVals fresh "total_points" ≠ colVals persisted "total_points")) := by
  simp [check_for_updates, runUpdates, tableVerdict, lookupTable, lookupVerdict,
    getCol, h1, h2]

/-- Witness for C3: changing only the non-`total_points` column `form`
(row count and `total_points` unchanged) yields verdict false. -/
theorem football_players_verdict_iff_total_points_witness :
    players_fresh ≠ players_persisted
    ∧ lookupVerdict
        (check_for_updates (some [("football_players", players_persisted)])
          (some [("football_players", players_fresh)])) "football_players"
        = some false := by
  refine ⟨by decide, ?_⟩
  have h := football_players_verdict_iff_total_points players_fresh
    players_persisted (by decide) (by decide)
  rw [h]
  decide

/-- When the loop completes without an exception, it has produced one
verdict per fetched table, in fetch order. -/
theorem runUpdates_keys (conn : Store) (api : TableSet) (vs : List (String × Bool))
    (h : runUpdates conn api = .ok vs) : vs.map Prod.fst = api.map Prod.fst := by
  induction api generalizing vs with
  | nil =>
    simp only [runUpdates] at h
    cases h
    simp
  | cons p rest ih =>
    obtain ⟨name, new_df⟩ := p
    simp only [runUpdates] at h
    cases hv : tableVerdict conn name new_df with
    | error e => rw [hv] at h; cases h
    | ok b =>
      rw [hv] at h
      cases hr : runUpdates conn rest with
      | error e => rw [hr] at h; cases h
      | ok vs2 =>
        rw [hr] at h
        cases h
        simpa using ih vs2 hr

/-- Claim C6: `check_for_updates` returns either a complete verdict set
(one verdict per fetched table) or the empty one, never a partial one;
when the remote fetch fails it returns the empty set having issued no
store read, and an unreachable store also yields the empty set. -/
theorem check_for_updates_all_or_nothing (store : Option Store)
    (fetch : Option TableSet) :
    (check_for_updates store fetch = []
      ∨ (check_for_updates store fetch).map Prod.fst
          = (fetch.getD []).map Prod.fst)
    ∧ (fetch = none →
        check_for_updates store fetch = []
        ∧ checkForUpdatesReads store fetch = [])
    ∧ (store = none → check_for_updates store fetch = []) := by
  refine ⟨?_, ?_, ?_⟩
  · cases store with
    | none => exact Or.inl rfl
    | some conn =>
      cases fetch with
      | none => exact Or.inl rfl
      | some api =>
        cases h : runUpdates conn api with
        | error e => exact Or.inl (by simp [check_for_updates, h])
        | ok vs =>
          refine Or.inr ?_
          simpa [check_for_updates, h] using runUpdates_keys conn api vs h
  · rintro rfl
    cases store <;> simp [check_for_updates, checkForUpdatesReads]
  · rintro rfl
    rfl

/-- Witness for C6: with a reachable one-table store but a failed fetch,
the verdict set is empty and no store read was issued. -/
theorem check_for_updates_all_or_nothing_witness :
    check_for_updates (some [("months", [[("id", cInt 1)]])]) none = []
    ∧ checkForUpdatesReads (some [("months", [[("id", cInt 1)]])]) none = [] :=
  (check_for_updates_all_or_nothing (some [("months", [[("id", cInt 1)]])])
    none).2.1 rfl

/-- The running `foldl max` is the initial value or one of the list
elements. -/
theorem foldl_max_mem (xs : List Int) (a : Int) :
    xs.foldl max a = a ∨ xs.foldl max a ∈ xs := by
  induction xs generalizing a with
  | nil => exact Or.inl rfl
  | cons x xs ih =>
    simp only [List.foldl_cons]
    rcases ih (max a x) with h | h
    · rcases max_choice a x with hm | hm
      · exact Or.inl (h.trans hm)
      · exact Or.inr (by rw [h, hm]; exact List.mem_cons_self x xs)
    · exact Or.inr (List.mem_cons_of_mem x h)

/-- The running `foldl max` bounds its initial value. -/
theorem le_foldl_max (xs : List Int) (a : Int) : a ≤ xs.foldl max a := by
  induction xs generalizing a with
  | nil => exact le_refl a
  | cons x xs ih => exact le_trans (le_max_left a x) (ih (max a x))

/-- The running `foldl max` bounds every list element. -/
theorem foldl_max_ge_mem (xs : List Int) (a i : Int) (hi : i ∈ xs) :
    i ≤ xs.foldl max a := by
  induction xs generalizing a with
  | nil => cases hi
  | cons x xs ih =>
    rcases List.mem_cons.mp hi with rfl | h
    · exact le_trans (le_max_right a i) (le_foldl_max xs (max a i))
    · exact ih (max a x) h

/-- SQL `MAX` returns an element of the selected ids. -/
theorem sqlMax_mem (l : List Int) (m : Int) (h : sqlMax l = some m) : m ∈ l := by
  cases l with
  | nil => cases h
  | cons i is =>
    simp only [sqlMax, Option.some.injEq] at h
    rcases foldl_max_mem is i with h' | h'
    · rw [← h, h']; exact List.mem_cons_self i is
    · rw [← h]; exact List.mem_cons_of_mem i h'

/-- SQL `MAX` bounds every selected id. -/
theorem sqlMax_ge (l : List Int) (m : Int) (h : sqlMax l = some m) :
    ∀ i ∈ l, i ≤ m := by
  cases l with
  | nil => cases h
  | cons j is =>
    simp only [sqlMax, Option.some.injEq] at h
    intro i hi
    rw [← h]
    rcases List.mem_cons.mp hi with rfl | h'
    · exact le_foldl_max is i
    · exact foldl_max_ge_mem is j i h'

/-- Claim C7: `get_last_updated_gameweek` returns the maximum id among
persisted `game_weeks` rows whose `finished` flag holds, and 0 when the
store is unreachable and when no gameweek is finished. -/
theorem last_updated_gameweek_spec (conn : Store) (rows : Table)
    (h : lookupTable conn "game_weeks" = some rows) :
    get_last_updated_gameweek none = 0
    ∧ (finishedIds rows = [] → get_last_updated_gameweek (some conn) = 0)
    ∧ (finishedIds rows ≠ [] →
        get_last_updated_gameweek (some conn) ∈ finishedIds rows
        ∧ ∀ i ∈ finishedIds rows, i ≤ get_last_updated_gameweek (some conn)) := by
  refine ⟨rfl, ?_, ?_⟩
  · intro hnil
    simp [get_last_updated_gameweek, h, hnil, sqlMax]
  · intro hne
    cases hm : sqlMax (finishedIds rows) with
    | none =>
      cases hl : finishedIds rows with
      | nil => exact absurd hl hne
      | cons j is => rw [hl] at hm; cases hm
    | some m =>
      have hres : get_last_updated_gameweek (some conn) = m := by
        simp [get_last_updated_gameweek, h, hm]
      rw [hres]
      exact ⟨sqlMax_mem _ m hm, sqlMax_ge _ m hm⟩

/-- Witness for C7: a store with `game_weeks` rows
`[{id:5, finished:true}, {id:6, finished:false}]` yields 5, and an
unreachable store yields 0. -/
theorem last_updated_gameweek_spec_witness :
    get_last_updated_gameweek
      (some [("game_weeks",
        [[("id", cInt 5), ("finished", Cell.cval (.vbool true))],
         [("id", cInt 6), ("finished", Cell.cval (.vbool false))]])]) = 5
    ∧ get_last_updated_gameweek none = 0 := by
  have h := last_updated_gameweek_spec
    [("game_weeks",
      [[("id", cInt 5), ("finished", Cell.cval (.vbool true))],
       [("id", cInt 6), ("finished", Cell.cval (.vbool false))]])]
    [[("id", cInt 5), ("finished", Cell.cval (.vbool true))],
     [("id", cInt 6), ("finished", Cell.cval (.vbool false))]]
    (by decide)
  have hmem := (h.2.2 (by decide)).1
  have hids : finishedIds
      [[("id", cInt 5), ("finished", Cell.cval (.vbool true))],
       [("id", cInt 6), ("finished", Cell.cval (.vbool false))]] = [5] := by
    decide
  rw [hids] at hmem
  exact ⟨List.mem_singleton.mp hmem, h.1⟩

/-- Claim C8: on a successful manager-gameweek fetch the operation never
fails as a whole; each of the four sub-mappings whose remote field is
absent or null yields an absent sub-table; and a present non-null list
field such as `picks` yields a table with one row per list item. -/
theorem manager_gameweek_defensive (data : RemoteData) :
    (get_manager_gameweek_data (some data)).isSome = true
    ∧ (∀ dk rk, (dk, rk) ∈ data_mapping →
        (lookupField data rk = none ∨ lookupField data rk = some .jnull) →
        lookupSub (get_manager_gameweek_data (some data)) dk = some none)
    ∧ (∀ items, lookupField data "picks" = some (.jlist items) →
        lookupSub (get_manager_gameweek_data (some data)) "player_picks"
          = some (some (dfFromItems items))
        ∧ (dfFromItems items).length = items.length) := by
  refine ⟨rfl, ?_, ?_⟩
  · intro dk rk hmem habs
    have hsub : extractSub data dk rk = none := by
      rcases habs with h | h <;> simp [extractSub, h]
    have hmem' : dk = "active_chips" ∧ rk = "active_chip"
        ∨ dk = "automatic_subs" ∧ rk = "automatic_subs"
        ∨ dk = "event_history" ∧ rk = "entry_history"
        ∨ dk = "player_picks" ∧ rk = "picks" := by
      simpa [data_mapping, Prod.ext_iff] using hmem
    rcases hmem' with ⟨rfl, rfl⟩ | ⟨rfl, rfl⟩ | ⟨rfl, rfl⟩ | ⟨rfl, rfl⟩ <;>
      simp [get_manager_gameweek_data, data_mapping, lookupSub, hsub]
  · intro items hpicks
    have hsub : extractSub data "player_picks" "picks"
        = some (dfFromItems items) := by
      simp [extractSub, hpicks]
    constructor
    · simp [get_manager_gameweek_data, data_mapping, lookupSub, hsub]
    · simp [dfFromItems]

/-- A manager-gameweek pick record. -/
def pickItem (el pos : Int) : JItem :=
  .iobj [("element", .vint el), ("position", .vint pos)]

/-- A concrete manager-gameweek response: `active_chip` is null, `picks`
is a non-null two-element list. -/
def managerResponse : RemoteData :=
  [("active_chip", .jnull),
   ("automatic_subs", .jlist []),
   ("entry_history", .jobj [("event", .vint 3), ("points", .vint 50)]),
   ("picks", .jlist [pickItem 100 1, pickItem 200 2])]

/-- Witness for C8: on `managerResponse` the `active_chips` sub-table is
absent while `player_picks` is a populated two-row table, and the overall
result is present. -/
theorem manager_gameweek_defensive_witness :
    (get_manager_gameweek_data (some managerResponse)).isSome = true
    ∧ lookupSub (get_manager_gameweek_data (some managerResponse))
        "active_chips" = some none
    ∧ lookupSub (get_manager_gameweek_data (some managerResponse))
        "player_picks"
        = some (some (dfFromItems [pickItem 100 1, pickItem 200 2]))
    ∧ (dfFromItems [pickItem 100 1, pickItem 200 2]).length = 2 := by
  have h := manager_gameweek_defensive managerResponse
  refine ⟨h.1, ?_, ?_, ?_⟩
  · exact h.2.1 "active_chips" "active_chip" (by decide) (Or.inr (by decide))
  · exact (h.2.2 [pickItem 100 1, pickItem 200 2] (by decide)).1
  · exact ((h.2.2 [pickItem 100 1, pickItem 200 2] (by decide)).2).trans
      (by decide)

/-- Claim C10: `sync_database` with an empty (but provided) table filter
behaves identically to `sync_database` with no filter — the falsy empty
list falls back to all verdict keys. -/
theorem sync_database_empty_filter_eq_none (store : Option Store)
    (fetch1 fetch2 : Option TableSet) :
    sync_database store fetch1 fetch2 (some [])
      = sync_database store fetch1 fetch2 none := rfl

/-- A one-row persisted `months` table. -/
def months_persisted : Table := [[("id", cInt 1)]]

/-- A two-row fresh `months` table (row count changed, so the verdict for
`months` is true). -/
def months_fresh : Table := [[("id", cInt 1)], [("id", cInt 2)]]

/-- Claim C1 (code bug): with a persisted `months` table whose fresh copy
differs (verdict true), `sync_database` computes the full-table
`update_dict` but returns the store unchanged — the write
(`save_to_database`, src lines 225-226) is commented out, so the
persisted copy does not equal the fresh fetch after sync. -/
theorem sync_database_never_writes :
    lookupVerdict
      (check_for_updates (some [("months", months_persisted)])
        (some [("months", months_fresh)])) "months" = some true
    ∧ sync_database (some [("months", months_persisted)])
        (some [("months", months_fresh)]) (some [("months", months_fresh)]) none
        = (some [("months", months_persisted)],
           .computed [("months", months_fresh)])
    ∧ lookupTable [("months", months_persisted)] "months" ≠ some months_fresh := by
  refine ⟨rfl, rfl, ?_⟩
  decide

/-- Claim C9 (code bug): constructing `FPLDataCollection` raises —
line 16 of `__init__` evaluates `get_fpl_data()` while the nested `def`
that binds that local name (line 34) has not executed yet, so an
`UnboundLocalError` escapes the constructor uncaught. -/
theorem construction_raises_unbound_local :
    constructFPLDataCollection = .error "UnboundLocalError: get_fpl_data" := rfl

end FPL
